import Mathlib

/-!
# TrueFlow interaction-telemetry module: shallow embedding and verification

This file embeds the event-capture pipeline of the TrueFlow browser
telemetry module (observers for clicks, mouse moves, scrolls, form
submissions and page changes, plus the session coordinator) as executable
Lean definitions, and proves properties of the embedded code.

Sources embedded:
- `src/clicks.ts` (`Clicks` / `handleMouseClick`)
- `src/mouse_movements.ts` (`MouseMoves` / `handleMouseMove`)
- `src/forms.ts` (`FormSubmissions` / `handleFormSubmissions`)
- `src/scroll.ts` (`Scrolls` / `handleMouseScroll`)
- `src/page_change.ts` (`DetectPageChange`)
- `src/index.tsx` (`FlowProvider`: `sendEvent`, `GetRecordingInstructions`,
  the reactive forwarding effects)
-/

namespace TrueFlow

/-- A DOM element as seen by the observers: its `tagName` (as reported by
the DOM, typically uppercase for HTML elements), whether its inline
`onclick` handler is non-null, and the values of the `data-clickable` and
`data-readable` attributes (`none` models `getAttribute` returning
`null`). -/
structure Element where
  tagName : String
  hasOnclick : Bool
  dataClickable : Option String
  dataReadable : Option String
deriving DecidableEq, Repr

/-- JavaScript truthiness of a `string | null` value, as used when a
`getAttribute` result appears in a boolean context: `null` and the empty
string are falsy, every other string is truthy. -/
def jsTruthyStr : Option String → Bool
  | none => false
  | some s => s != ""

/-- Charwise lowercasing of a string, the embedding of JavaScript
`String.prototype.toLowerCase` as used on tag names. -/
def lowerStr (s : String) : String := ⟨s.data.map Char.toLower⟩

/-- The clickable-tag list from `clicks.ts` lines 65-71 (and identically
`mouse_movements.ts` lines 148-154): real tag names mixed with two
CSS-selector-style strings. -/
def clickableTags : List String :=
  ["a", "button", "input", "input[type=\"submit\"]", "[onclick]"]

/-- `isClickable` from `clicks.ts` lines 60-86 (identical in
`mouse_movements.ts` lines 145-169): the target is clickable when its
`onclick` handler is non-null, or its lowercased tag name is in
`clickableTags`, or `getAttribute("data-clickable")` is truthy. -/
def isClickable (target : Element) : Bool :=
  let hasHandler := target.hasOnclick
  let isClickableTag := clickableTags.contains (lowerStr target.tagName)
  if hasHandler || isClickableTag || jsTruthyStr target.dataClickable then
    true
  else
    false

/-- The bounding rectangle of the instrumented container, as returned by
`getBoundingClientRect`: only its `left`/`top` viewport offsets are read. -/
structure Rect where
  left : Int
  top : Int
deriving DecidableEq, Repr

/-- The window/document environment read by a pointer handler: the
viewport dimensions (`none` models a missing `window` object, in which
case the code leaves width/height at 0), the capture timestamp from
`new Date().getTime()`, and the container rectangle from
`ref.current?.getBoundingClientRect()` (`none` when the ref is empty). -/
structure Env where
  winDims : Option (Int × Int)
  now : Int
  rect : Option Rect
deriving DecidableEq, Repr

/-- A pointer event: its target element, the chain of the target's
ancestor elements following `parentElement` links from the target's
parent outward to the document root, the absolute page coordinates, and
the mouse button code. -/
structure PointerEvent where
  target : Element
  ancestors : List Element
  pageX : Int
  pageY : Int
  button : Nat
deriving DecidableEq, Repr

/-- `Array.prototype.join(sep)`: the empty list gives `""`, otherwise the
elements separated by `sep`. -/
def joinSep (sep : String) : List String → String
  | [] => ""
  | [x] => x
  | x :: y :: xs => x ++ sep ++ joinSep sep (y :: xs)

/-- The ancestor-chain walk of `clicks.ts` lines 106-117: starting from
the target, repeatedly `unshift` the current element and move to its
parent, producing the chain in root-to-target order. With the parent
chain modelled as a list this is `(target :: ancestors).reverse`. -/
def buildTree (target : Element) (ancestors : List Element) : List Element :=
  (target :: ancestors).reverse

/-- `treeAsString` of `clicks.ts` lines 119-128: map the tree to tag
names, join with `" > "`, lowercase the joined string, and replace the
empty string by `undefined` (modelled as `none`). The tree is only built
when the target was classified clickable. -/
def treeAsString (target : Element) (ancestors : List Element)
    (clickableElement : Option String) : Option String :=
  let tree : List Element :=
    match clickableElement with
    | none => []
    | some _ => buildTree target ancestors
  let s := lowerStr (joinSep " > " (tree.map (fun el => el.tagName)))
  if s = "" then none else some s

/-- The record published by the click observer (`ClickPositionProps` of
`clicks.ts`); `type` is always the literal `"click"`. -/
structure ClickPositionProps where
  pageX : Int
  pageY : Int
  windowWidth : Int
  windowHeight : Int
  timestamp : Int
  isClickable : Bool
  clickType : String
  clickableElement : Option String
  tree : Option String
  type : String
  context : Option String
deriving DecidableEq, Repr

/-- The record published by the move observer (`MousePositionProps` of
`mouse_movements.ts`); it has exactly the fields of `ClickPositionProps`
except `clickType`, and `type` is always the literal `"move"`. -/
structure MousePositionProps where
  pageX : Int
  pageY : Int
  windowWidth : Int
  windowHeight : Int
  timestamp : Int
  isClickable : Bool
  clickableElement : Option String
  tree : Option String
  type : String
  context : Option String
deriving DecidableEq, Repr

/-- `clickType` derivation of `clicks.ts` lines 88-94: button 0 is
`"left"`, button 2 is `"right"`, anything else is `""`. -/
def clickTypeOf (button : Nat) : String :=
  if button = 0 then "left" else if button = 2 then "right" else ""

/-- The `windowWidth`/`windowHeight` initialisation of `clicks.ts` lines
47-54: 0 when there is no `window`, otherwise the inner dimensions. -/
def windowDims (env : Env) : Int × Int :=
  match env.winDims with
  | none => (0, 0)
  | some wh => wh

/-- `clickableElement` of `clicks.ts` lines 96-103: the lowercased node
name of the target when it is classified clickable, otherwise `null`.
(`nodeName` coincides with `tagName` for elements.) -/
def clickableElementOf (target : Element) : Option String :=
  if isClickable target then some (lowerStr target.tagName) else none

/-- The body of `handleMouseClick` (`clicks.ts` lines 39-152) after the
`allowRecord` gate: the record it passes to `setClickPosition`. -/
def mkClickRecord (env : Env) (e : PointerEvent) : ClickPositionProps :=
  let clickableElement := clickableElementOf e.target
  { pageX := e.pageX - ((env.rect.map Rect.left).getD 0)
    pageY := e.pageY - ((env.rect.map Rect.top).getD 0)
    windowWidth := (windowDims env).1
    windowHeight := (windowDims env).2
    timestamp := env.now
    isClickable := isClickable e.target
    clickType := clickTypeOf e.button
    clickableElement := clickableElement
    tree := treeAsString e.target e.ancestors clickableElement
    type := "click"
    context := e.target.dataReadable }

/-- The body of `handleMouseMove` (`mouse_movements.ts` lines 127-232)
after the `allowRecord` gate: the record it passes to `setMousePosition`.
The handler computes a `clickType` from `e.button` exactly as the click
handler does, but never stores it in the record. -/
def mkMoveRecord (env : Env) (e : PointerEvent) : MousePositionProps :=
  let clickableElement := clickableElementOf e.target
  { pageX := e.pageX - ((env.rect.map Rect.left).getD 0)
    pageY := e.pageY - ((env.rect.map Rect.top).getD 0)
    windowWidth := (windowDims env).1
    windowHeight := (windowDims env).2
    timestamp := env.now
    isClickable := isClickable e.target
    clickableElement := clickableElement
    tree := treeAsString e.target e.ancestors clickableElement
    type := "move"
    context := e.target.dataReadable }

/-- `handleMouseClick` as a transition on the observer's one-slot state:
when `allowRecord` is false the handler returns immediately and the
pending record is untouched; otherwise `setClickPosition` replaces it. -/
def handleMouseClick (allowRecord : Bool) (env : Env) (e : PointerEvent)
    (pending : Option ClickPositionProps) : Option ClickPositionProps :=
  if !allowRecord then pending else some (mkClickRecord env e)

/-- `handleMouseMove` as a transition on the observer's one-slot state. -/
def handleMouseMove (allowRecord : Bool) (env : Env) (e : PointerEvent)
    (pending : Option MousePositionProps) : Option MousePositionProps :=
  if !allowRecord then pending else some (mkMoveRecord env e)

/-- The record published by the scroll observer (`ScrollPositionProps` of
`scroll.ts`). -/
structure ScrollPositionProps where
  scrollX : Int
  scrollY : Int
  windowWidth : Int
  windowHeight : Int
  timestamp : Int
deriving DecidableEq, Repr

/-- The window state read by the scroll handler. -/
structure ScrollEnv where
  winDims : Option (Int × Int)
  scrollX : Int
  scrollY : Int
  now : Int
deriving DecidableEq, Repr

/-- `handleMouseScroll` (`scroll.ts` lines 94-118) as a transition on the
observer's one-slot state: no record when `allowRecord` is false,
otherwise the current scroll offsets, viewport size and timestamp. -/
def handleMouseScroll (allowRecord : Bool) (env : ScrollEnv)
    (pending : Option ScrollPositionProps) : Option ScrollPositionProps :=
  if !allowRecord then pending
  else
    let wh : Int × Int :=
      match env.winDims with
      | none => (0, 0)
      | some wh => wh
    some { scrollX := env.scrollX, scrollY := env.scrollY
           windowWidth := wh.1, windowHeight := wh.2
           timestamp := env.now }

/-- An `<input>` element as seen by the form observer: its `name`,
`type` and current `value` attributes. -/
structure Input where
  name : String
  type : String
  value : String
deriving DecidableEq, Repr

/-- `new FormData(form)`: one `(name, value)` entry per submittable field
of the submitted form that has a non-empty `name`, in document order. -/
def formDataEntries (formInputs : List Input) : List (String × String) :=
  (formInputs.filter (fun i => i.name != "")).map (fun i => (i.name, i.value))

/-- The names of the password inputs matched by
`document.querySelectorAll("input[type=\"password\"]")` — note this scans
the whole document, not just the submitted form. -/
def passwordNames (docInputs : List Input) : List String :=
  (docInputs.filter (fun i => i.type == "password")).map (fun i => i.name)

/-- The body of `handleFormSubmissions` (`forms.ts` lines 31-58) after the
`allowRecord` gate: build the form-data entries, delete every entry whose
key is the name of some password input anywhere in the document
(`data.delete(input.name)` removes all entries under that key), and
publish the survivors. The published object is modelled as the surviving
entry list; see `objGet` for its key-lookup semantics. -/
def mkFormRecord (docInputs formInputs : List Input) : List (String × String) :=
  let data := formDataEntries formInputs
  data.filter (fun kv => !((passwordNames docInputs).contains kv.1))

/-- `handleFormSubmissions` as a transition on the observer's one-slot
state: when `allowRecord` is false the handler returns before touching
anything (and without suppressing the default submit action); otherwise
it publishes the filtered field map. -/
def handleFormSubmissions (allowRecord : Bool) (docInputs formInputs : List Input)
    (pending : Option (List (String × String))) : Option (List (String × String)) :=
  if !allowRecord then pending else some (mkFormRecord docInputs formInputs)

/-- Lookup in a JavaScript object built by `newData[key] = value` over a
list of entries: the last entry under a key wins; `none` when no entry
has the key. -/
def objGet : List (String × String) → String → Option String
  | [], _ => none
  | kv :: rest, k =>
    match objGet rest k with
    | some v => some v
    | none => if kv.1 == k then some kv.2 else none

/-- The page record of `page_change.ts`: current URL and document title. -/
structure PageDetails where
  url : String
  title : String
deriving DecidableEq, Repr

/-- The browser state read by the page-change watcher on a tick. -/
structure PageEnv where
  href : String
  title : String
deriving DecidableEq, Repr

/-- The eager `useState` initialiser of `DetectPageChange`
(`page_change.ts` lines 24-27): the watcher starts with the current URL
and title, so its record is never absent. -/
def initPageDetails (env : PageEnv) : PageDetails :=
  { url := env.href, title := env.title }

/-- One tick of the polling interval of `DetectPageChange`
(`page_change.ts` lines 36-43): if the current URL differs from the
recorded one, replace the record with the current URL and title;
otherwise leave it untouched. -/
def pollTick (env : PageEnv) (s : PageDetails) : PageDetails :=
  if env.href != s.url then { url := env.href, title := env.title } else s

/-- An `"events"` wire message for an interaction record, as emitted by
`sendEvent` in `index.tsx` lines 175-185: the record, the current
recording-session id, and the page details spread into the payload. -/
structure WireMsg (α : Type) where
  event : α
  recordingsId : Option Int
  url : String
  title : String
deriving DecidableEq, Repr

/-- The coordinator's per-category forwarding step: the reactive effect of
`index.tsx` lines 169-223 guarded by `if (record)`, combined with
`sendEvent`. Given the socket presence, the connection status, the
current session id and page details, and the observer's pending record,
it returns the emitted message (if any) and the pending record afterwards
(`cleanup` sets it to `none` exactly when a message was sent). -/
def forwardRecord {α : Type} (socketPresent connectStatus : Bool)
    (recordingsId : Option Int) (page : PageDetails) :
    Option α → Option (WireMsg α) × Option α
  | none => (none, none)
  | some r =>
    if !socketPresent then (none, some r)
    else if connectStatus then
      (some { event := r, recordingsId := recordingsId
              url := page.url, title := page.title }, none)
    else (none, some r)

/-- The coordinator state acted on by a recording directive: the enabled
category names and the recording-session id. -/
structure CoordinatorState where
  recordingTypes : List String
  recordingsId : Option Int
deriving DecidableEq, Repr

/-- A server-pushed recording directive `{ enabled, id }`; a missing `id`
is `none`. -/
structure Directive where
  enabled : List String
  id : Option Int
deriving DecidableEq, Repr

/-- `GetRecordingInstructions` (`index.tsx` lines 131-137):
`setRecordingsId(data.id ?? undefined)` then
`setRecordingTypes(data.enabled)`. -/
def GetRecordingInstructions (s : CoordinatorState) (data : Directive) :
    CoordinatorState :=
  { s with recordingsId := data.id, recordingTypes := data.enabled }

/-- The clickability characterisation exactly as the specification states
it: non-null inline click handler, or tag name case-insensitively in
{a, button, input}, or the target carries a `data-clickable` attribute
(attribute present, i.e. `getAttribute` non-null). Written from the
spec's words, to be compared with the source's `isClickable`. -/
def clickableSpecStated (t : Element) : Bool :=
  t.hasOnclick || (["a", "button", "input"].contains (lowerStr t.tagName))
    || t.dataClickable.isSome

/-- The amended clickability characterisation: as `clickableSpecStated`
but requiring the `data-clickable` attribute to have a non-empty value
(an empty attribute value is falsy in JavaScript, so the source treats it
as not clickable). -/
def clickableSpecAmended (t : Element) : Bool :=
  t.hasOnclick || (["a", "button", "input"].contains (lowerStr t.tagName))
    || jsTruthyStr t.dataClickable

/-- Forget the click-specific fields of a click record, keeping every
field a move record has (and retagging the discriminator): the shared
part of the two record shapes. -/
def stripToMove (r : ClickPositionProps) : MousePositionProps :=
  { pageX := r.pageX, pageY := r.pageY
    windowWidth := r.windowWidth, windowHeight := r.windowHeight
    timestamp := r.timestamp, isClickable := r.isClickable
    clickableElement := r.clickableElement, tree := r.tree
    type := "move", context := r.context }

/-- The `FlowProvider` state relevant to event capture: the enabled
category names and session id (driven by directives), the connection
status, the current page details, and the four observers' one-slot
pending records. -/
structure SystemState where
  recordingTypes : List String
  recordingsId : Option Int
  connectStatus : Bool
  page : PageDetails
  clickRec : Option ClickPositionProps
  moveRec : Option MousePositionProps
  scrollRec : Option ScrollPositionProps
  formRec : Option (List (String × String))
deriving DecidableEq, Repr

/-- A mousedown event dispatched to the click observer, which is mounted
with `allowRecord := recordingTypes.includes("clicks")`
(`index.tsx` lines 51-54). -/
def dispatchClick (s : SystemState) (env : Env) (e : PointerEvent) : SystemState :=
  { s with clickRec :=
      handleMouseClick (s.recordingTypes.contains "clicks") env e s.clickRec }

/-- A mousemove event dispatched to the move observer, mounted with
`allowRecord := recordingTypes.includes("movements")`
(`index.tsx` lines 62-65). -/
def dispatchMove (s : SystemState) (env : Env) (e : PointerEvent) : SystemState :=
  { s with moveRec :=
      handleMouseMove (s.recordingTypes.contains "movements") env e s.moveRec }

/-- A scroll event dispatched to the scroll observer, mounted with
`allowRecord := recordingTypes.includes("scrolls")`
(`index.tsx` lines 81-83). -/
def dispatchScroll (s : SystemState) (env : ScrollEnv) : SystemState :=
  { s with scrollRec :=
      handleMouseScroll (s.recordingTypes.contains "scrolls") env s.scrollRec }

/-- A submit event dispatched to the form observer, mounted with
`allowRecord := recordingTypes.includes("forms")`
(`index.tsx` lines 72-74). -/
def dispatchForm (s : SystemState) (docInputs formInputs : List Input) : SystemState :=
  { s with formRec :=
      (handleFormSubmissions (s.recordingTypes.contains "forms")
        docInputs formInputs s.formRec) }

/-- The messages produced for one category by the reactive forwarding
effect of `index.tsx` lines 169-223 in response to one event: the effect
re-runs only when its dependency (the category's record) changed, and
then emits via `forwardRecord`. -/
def effectMsgs {α : Type} [DecidableEq α] (connectStatus : Bool)
    (recordingsId : Option Int) (page : PageDetails)
    (oldRec newRec : Option α) : List (WireMsg α) :=
  if newRec = oldRec then []
  else
    match (forwardRecord true connectStatus recordingsId page newRec).1 with
    | none => []
    | some m => [m]

/-- A `div` carrying `data-clickable` with the empty value (the DOM value
of a bare `data-clickable` attribute). -/
def emptyAttrDiv : Element :=
  { tagName := "DIV", hasOnclick := false
    dataClickable := some "", dataReadable := none }

/-- A plain `BUTTON` element. -/
def plainButton : Element :=
  { tagName := "BUTTON", hasOnclick := false
    dataClickable := none, dataReadable := none }

/-- A sample environment: a 1024×768 window, timestamp 1700000000000, and
a container at viewport offset (40, 25). -/
def sampleEnv : Env :=
  { winDims := some (1024, 768), now := 1700000000000
    rect := some { left := 40, top := 25 } }

/-- A sample pointer-down on the plain button nested under `html > body`. -/
def sampleButtonEvent : PointerEvent :=
  { target := plainButton
    ancestors := [{ tagName := "BODY", hasOnclick := false
                    dataClickable := none, dataReadable := none },
                  { tagName := "HTML", hasOnclick := false
                    dataClickable := none, dataReadable := none }]
    pageX := 300, pageY := 90, button := 0 }

/-- A sample scroll environment. -/
def sampleScrollEnv : ScrollEnv :=
  { winDims := some (1024, 768), scrollX := 0, scrollY := 420
    now := 1700000000000 }

/-- A system state with every recording category disabled. -/
def idleSystem : SystemState :=
  { recordingTypes := [], recordingsId := some 7, connectStatus := true
    page := { url := "https://example.test/home", title := "Home" }
    clickRec := none, moveRec := none, scrollRec := none, formRec := none }

/-- A document containing a login form (user/password) and, elsewhere in
the document, a standalone search form whose only field is a text input
named `token`. -/
def sampleDocInputs : List Input :=
  [{ name := "user", type := "text", value := "jo" },
   { name := "token", type := "password", value := "s3cret" },
   { name := "token", type := "text", value := "abc123" }]

/-- The submitted form: a text field `user` and a text field `token`
(the `token` field here is NOT a password input; an input of type
password named `token` exists elsewhere in `sampleDocInputs`). -/
def sampleFormInputs : List Input :=
  [{ name := "user", type := "text", value := "jo" },
   { name := "token", type := "text", value := "abc123" }]

/-- A login form whose inputs all occur in its document. -/
def loginFormInputs : List Input :=
  [{ name := "user", type := "text", value := "jo" },
   { name := "pw", type := "password", value := "hunter2" }]

/-- The document containing exactly the login form. -/
def loginDocInputs : List Input := loginFormInputs

/-! ## Helper lemmas -/

theorem lowerStr_append (a b : String) :
    lowerStr (a ++ b) = lowerStr a ++ lowerStr b := by
  simp [lowerStr, String.data_append]
  rfl

theorem lowerStr_joinSep : ∀ l : List String,
    lowerStr (joinSep " > " l) = joinSep " > " (l.map lowerStr)
  | [] => by decide
  | [x] => by simp [joinSep]
  | x :: y :: xs => by
    have ih := lowerStr_joinSep (y :: xs)
    simp only [joinSep, List.map_cons, lowerStr_append]
    rw [ih]
    have hsep : lowerStr " > " = " > " := by decide
    simp [hsep, joinSep]

theorem joinSep_ne_empty : ∀ l : List String,
    (∃ s ∈ l, s ≠ "") → joinSep " > " l ≠ ""
  | [], h => by simp at h
  | [x], h => by
    simp at h
    simpa [joinSep] using h
  | x :: y :: xs, _ => by
    intro hc
    have := congrArg String.length hc
    simp [joinSep, String.length_append] at this
    exact absurd this.1.2 (by decide)

theorem lowerStr_ne_empty (s : String) (h : s ≠ "") : lowerStr s ≠ "" := by
  intro hc
  have hlen := congrArg String.length hc
  simp [lowerStr, String.length_mk] at hlen
  exact h (by
    cases s with
    | mk d => simpa [String.length_mk] using
        congrArg String.mk (List.length_eq_zero.mp hlen))

theorem isClickable_eq_amended (t : Element)
    (h1 : lowerStr t.tagName ≠ "input[type=\"submit\"]")
    (h2 : lowerStr t.tagName ≠ "[onclick]") :
    isClickable t = clickableSpecAmended t := by
  have hc : clickableTags.contains (lowerStr t.tagName)
      = (["a", "button", "input"].contains (lowerStr t.tagName)) := by
    simp [clickableTags, List.contains, List.elem_eq_mem, h1, h2]
  unfold isClickable clickableSpecAmended
  rw [hc]
  cases hb : (t.hasOnclick || (["a", "button", "input"].contains (lowerStr t.tagName))
      || jsTruthyStr t.dataClickable) <;> simpa using hb

theorem objGet_filter_key (q : String → Bool) :
    ∀ (l : List (String × String)) (k : String),
      objGet (l.filter (fun kv => q kv.1)) k = if q k then objGet l k else none
  | [], k => by cases hq : q k <;> simp [objGet, hq, List.filter_nil]
  | kv :: l, k => by
    have ih := objGet_filter_key q l k
    by_cases hk : kv.1 = k
    · cases hq : q k
      · rw [List.filter_cons_of_neg (by simp [hk, hq])]
        rw [ih, hq]
        simp
      · rw [List.filter_cons_of_pos (by simp [hk, hq])]
        simp only [objGet, ih, hq, if_true]
    · have hbeq : (kv.1 == k) = false := by simp [hk]
      by_cases hq : q kv.1
      · rw [List.filter_cons_of_pos (by simpa using hq)]
        simp only [objGet, ih, hbeq]
        cases hqk : q k <;> cases ho : objGet l k <;> simp [ho, hqk]
      · rw [List.filter_cons_of_neg (by simpa using hq)]
        rw [ih]
        cases hqk : q k <;> cases ho : objGet l k <;> simp [objGet, hbeq, hqk, ho]

theorem contains_passwordNames (docInputs : List Input) (i : Input)
    (hi : i ∈ docInputs) (ht : i.type = "password") :
    (passwordNames docInputs).contains i.name = true := by
  have hmem : i.name ∈ passwordNames docInputs := by
    refine List.mem_map_of_mem _ (List.mem_filter.mpr ⟨hi, ?_⟩)
    simp [ht]
  simpa [List.contains, List.elem_eq_mem] using hmem

theorem objGet_mkFormRecord (docInputs formInputs : List Input) (k : String) :
    objGet (mkFormRecord docInputs formInputs) k
      = if !((passwordNames docInputs).contains k)
        then objGet (formDataEntries formInputs) k else none :=
  objGet_filter_key (fun m => !((passwordNames docInputs).contains m))
    (formDataEntries formInputs) k

/-! ## Claim theorems -/

/-- Claim C1, counterexample to the claim as stated: a `div` carrying a
`data-clickable` attribute with the empty value (the DOM value of a bare
`data-clickable` attribute) has no inline handler and no matching tag
name, and the spec formula classifies it clickable because the attribute
is present, yet the source's `isClickable` returns `false` because the
empty attribute value is falsy in JavaScript. -/
theorem clickable_claim_counterexample :
    emptyAttrDiv.dataClickable.isSome = true ∧
    clickableSpecStated emptyAttrDiv = true ∧
    isClickable emptyAttrDiv = false := by
  decide

/-- Claim C1 (amended): for every pointer-down or pointer-move record,
the `isClickable` field is true iff the target has a non-null inline
click handler, or its tag name lowercases to one of a/button/input, or it
carries a `data-clickable` attribute with a non-empty value — provided
the target's lowercased tag name is not literally one of the two
CSS-selector strings in the source's tag list (no real DOM tag name is). -/
theorem clickable_classification (env : Env) (e : PointerEvent)
    (h1 : lowerStr e.target.tagName ≠ "input[type=\"submit\"]")
    (h2 : lowerStr e.target.tagName ≠ "[onclick]") :
    (mkClickRecord env e).isClickable = clickableSpecAmended e.target ∧
    (mkMoveRecord env e).isClickable = clickableSpecAmended e.target := by
  have h := isClickable_eq_amended e.target h1 h2
  exact ⟨h, h⟩

/-- Witness for claim C1's theorem at a concrete button event. -/
theorem clickable_classification_witness :
    (mkClickRecord sampleEnv sampleButtonEvent).isClickable
        = clickableSpecAmended sampleButtonEvent.target ∧
    (mkMoveRecord sampleEnv sampleButtonEvent).isClickable
        = clickableSpecAmended sampleButtonEvent.target :=
  clickable_classification sampleEnv sampleButtonEvent (by decide) (by decide)

/-- Claim C2: with a container rectangle at viewport offset `(cx, cy)`
the captured click and move records carry `pageX = px - cx` and
`pageY = py - cy`; with no container rectangle the subtracted offsets are
zero, so the absolute coordinates pass through unchanged. -/
theorem coordinate_transform (env : Env) (e : PointerEvent) (cx cy : Int) :
    ((mkClickRecord { env with rect := some { left := cx, top := cy } } e).pageX
        = e.pageX - cx ∧
      (mkClickRecord { env with rect := some { left := cx, top := cy } } e).pageY
        = e.pageY - cy ∧
      (mkMoveRecord { env with rect := some { left := cx, top := cy } } e).pageX
        = e.pageX - cx ∧
      (mkMoveRecord { env with rect := some { left := cx, top := cy } } e).pageY
        = e.pageY - cy) ∧
    ((mkClickRecord { env with rect := none } e).pageX = e.pageX ∧
      (mkClickRecord { env with rect := none } e).pageY = e.pageY ∧
      (mkMoveRecord { env with rect := none } e).pageX = e.pageX ∧
      (mkMoveRecord { env with rect := none } e).pageY = e.pageY) := by
  simp [mkClickRecord, mkMoveRecord]

/-- Claim C3: when the target is not clickable, `tree` and
`clickableElement` are absent from both records; when it is clickable,
`tree` is the `" > "`-join of the lowercased tag names from the document
root down to the target (the hypothesis that the target's tag name is
non-empty rules out the degenerate empty joined string, which the code
collapses to absent). -/
theorem ancestor_path (env : Env) (e : PointerEvent)
    (hne : e.target.tagName ≠ "") :
    (isClickable e.target = false →
      (mkClickRecord env e).tree = none ∧
      (mkClickRecord env e).clickableElement = none ∧
      (mkMoveRecord env e).tree = none ∧
      (mkMoveRecord env e).clickableElement = none) ∧
    (isClickable e.target = true →
      (mkClickRecord env e).tree =
        some (joinSep " > "
          ((buildTree e.target e.ancestors).map (fun el => lowerStr el.tagName))) ∧
      (mkMoveRecord env e).tree =
        some (joinSep " > "
          ((buildTree e.target e.ancestors).map (fun el => lowerStr el.tagName)))) := by
  have hempty : lowerStr "" = "" := by decide
  constructor
  · intro hfalse
    have hel : clickableElementOf e.target = none := by
      simp [clickableElementOf, hfalse]
    have htree : treeAsString e.target e.ancestors none = none := by
      simp [treeAsString, joinSep, hempty]
    refine ⟨?_, ?_, ?_, ?_⟩ <;> simp [mkClickRecord, mkMoveRecord, hel, htree]
  · intro htrue
    have hel : clickableElementOf e.target = some (lowerStr e.target.tagName) := by
      simp [clickableElementOf, htrue]
    have htmem : e.target ∈ buildTree e.target e.ancestors := by simp [buildTree]
    have hmem : lowerStr e.target.tagName
        ∈ (buildTree e.target e.ancestors).map (fun el => lowerStr el.tagName) :=
      List.mem_map_of_mem _ htmem
    have hjoin : lowerStr (joinSep " > "
          ((buildTree e.target e.ancestors).map (fun el => el.tagName)))
        = joinSep " > "
          ((buildTree e.target e.ancestors).map (fun el => lowerStr el.tagName)) := by
      rw [lowerStr_joinSep, List.map_map]
      rfl
    have hs : joinSep " > "
        ((buildTree e.target e.ancestors).map (fun el => lowerStr el.tagName)) ≠ "" :=
      joinSep_ne_empty _ ⟨lowerStr e.target.tagName, hmem, lowerStr_ne_empty _ hne⟩
    have htree : treeAsString e.target e.ancestors (some (lowerStr e.target.tagName))
        = some (joinSep " > "
            ((buildTree e.target e.ancestors).map (fun el => lowerStr el.tagName))) := by
      simp only [treeAsString]
      rw [hjoin, if_neg hs]
    exact ⟨by simp [mkClickRecord, hel, htree], by simp [mkMoveRecord, hel, htree]⟩

/-- Witness for claim C3's theorem: a button nested under `html > body`. -/
theorem ancestor_path_witness :
    (mkClickRecord sampleEnv sampleButtonEvent).tree = some "html > body > button" := by
  have h := (ancestor_path sampleEnv sampleButtonEvent (by decide)).2 (by decide)
  rw [h.1]
  decide

/-- Claim C4: an event arriving at an observer whose category is not in
the enabled set leaves the whole system state unchanged (no record is
constructed, no observer state mutated), and the change-triggered
forwarding effect for that category emits no message. -/
theorem disabled_category_noop (s : SystemState) (env : Env) (e : PointerEvent)
    (senv : ScrollEnv) (docInputs formInputs : List Input) :
    (s.recordingTypes.contains "clicks" = false →
      dispatchClick s env e = s ∧
      effectMsgs s.connectStatus s.recordingsId s.page s.clickRec
        (dispatchClick s env e).clickRec = []) ∧
    (s.recordingTypes.contains "movements" = false →
      dispatchMove s env e = s ∧
      effectMsgs s.connectStatus s.recordingsId s.page s.moveRec
        (dispatchMove s env e).moveRec = []) ∧
    (s.recordingTypes.contains "scrolls" = false →
      dispatchScroll s senv = s ∧
      effectMsgs s.connectStatus s.recordingsId s.page s.scrollRec
        (dispatchScroll s senv).scrollRec = []) ∧
    (s.recordingTypes.contains "forms" = false →
      dispatchForm s docInputs formInputs = s ∧
      effectMsgs s.connectStatus s.recordingsId s.page s.formRec
        (dispatchForm s docInputs formInputs).formRec = []) := by
  refine ⟨fun h => ?_, fun h => ?_, fun h => ?_, fun h => ?_⟩
  · have hmem : "clicks" ∉ s.recordingTypes := by simpa using h
    have hd : dispatchClick s env e = s := by
      simp [dispatchClick, handleMouseClick, hmem]
    exact ⟨hd, by rw [hd]; simp [effectMsgs]⟩
  · have hmem : "movements" ∉ s.recordingTypes := by simpa using h
    have hd : dispatchMove s env e = s := by
      simp [dispatchMove, handleMouseMove, hmem]
    exact ⟨hd, by rw [hd]; simp [effectMsgs]⟩
  · have hmem : "scrolls" ∉ s.recordingTypes := by simpa using h
    have hd : dispatchScroll s senv = s := by
      simp [dispatchScroll, handleMouseScroll, hmem]
    exact ⟨hd, by rw [hd]; simp [effectMsgs]⟩
  · have hmem : "forms" ∉ s.recordingTypes := by simpa using h
    have hd : dispatchForm s docInputs formInputs = s := by
      simp [dispatchForm, handleFormSubmissions, hmem]
    exact ⟨hd, by rw [hd]; simp [effectMsgs]⟩

/-- Witness for claim C4's theorem: concrete events against a state with
no category enabled. -/
theorem disabled_category_noop_witness :
    (dispatchClick idleSystem sampleEnv sampleButtonEvent = idleSystem ∧
      effectMsgs idleSystem.connectStatus idleSystem.recordingsId idleSystem.page
        idleSystem.clickRec
        (dispatchClick idleSystem sampleEnv sampleButtonEvent).clickRec = []) ∧
    (dispatchMove idleSystem sampleEnv sampleButtonEvent = idleSystem ∧
      effectMsgs idleSystem.connectStatus idleSystem.recordingsId idleSystem.page
        idleSystem.moveRec
        (dispatchMove idleSystem sampleEnv sampleButtonEvent).moveRec = []) ∧
    (dispatchScroll idleSystem sampleScrollEnv = idleSystem ∧
      effectMsgs idleSystem.connectStatus idleSystem.recordingsId idleSystem.page
        idleSystem.scrollRec
        (dispatchScroll idleSystem sampleScrollEnv).scrollRec = []) ∧
    (dispatchForm idleSystem loginDocInputs loginFormInputs = idleSystem ∧
      effectMsgs idleSystem.connectStatus idleSystem.recordingsId idleSystem.page
        idleSystem.formRec
        (dispatchForm idleSystem loginDocInputs loginFormInputs).formRec = []) := by
  have h := disabled_category_noop idleSystem sampleEnv sampleButtonEvent
    sampleScrollEnv loginDocInputs loginFormInputs
  exact ⟨h.1 (by decide), h.2.1 (by decide), h.2.2.1 (by decide), h.2.2.2 (by decide)⟩

/-- Claim C5: with the socket present, a pending record is emitted as an
`"events"` wire message (bundling record, session id and page details)
and then cleared by the observer's cleanup exactly when the connection
status is connected; when disconnected nothing is emitted and the record
stays pending (the model is total, so no error is raised), until a next
same-category capture overwrites it or a later connected drain forwards
it. -/
theorem pending_record_forwarding {α : Type} (recordingsId : Option Int)
    (page : PageDetails) (r : α) (env : Env) (e : PointerEvent)
    (pending : Option ClickPositionProps) :
    (∀ connectStatus : Bool,
      ((forwardRecord true connectStatus recordingsId page (some r)).1).isSome
        = connectStatus) ∧
    forwardRecord true true recordingsId page (some r) =
      (some { event := r, recordingsId := recordingsId
              url := page.url, title := page.title }, none) ∧
    forwardRecord true false recordingsId page (some r) = (none, some r) ∧
    handleMouseClick true env e pending = some (mkClickRecord env e) := by
  refine ⟨fun c => ?_, ?_, ?_, ?_⟩
  · cases c <;> simp [forwardRecord]
  · simp [forwardRecord]
  · simp [forwardRecord]
  · simp [handleMouseClick]

/-- Claim C6, counterexample to the claim as stated: in
`sampleFormInputs` every submitted field named `token` is a text input,
and the form-data snapshot carries `token = abc123`, yet the published
record lacks `token`, because the code deletes by the names of password
inputs found anywhere in the document (`sampleDocInputs` has an unrelated
password input named `token`). -/
theorem form_password_claim_counterexample :
    (∀ i ∈ sampleFormInputs, i.name = "token" → i.type = "text") ∧
    objGet (formDataEntries sampleFormInputs) "token" = some "abc123" ∧
    objGet (mkFormRecord sampleDocInputs sampleFormInputs) "token" = none := by
  decide

/-- Claim C6 (amended): every submitted field that is a password input is
absent from the published record regardless of its name (given that the
submitted form's inputs occur in the document), and every field name that
does not collide with the name of a password input anywhere in the
document is published with its snapshotted value. -/
theorem form_password_stripping (docInputs formInputs : List Input)
    (hsub : ∀ i ∈ formInputs, i ∈ docInputs) :
    (∀ i ∈ formInputs, i.type = "password" →
      objGet (mkFormRecord docInputs formInputs) i.name = none) ∧
    (∀ n, (passwordNames docInputs).contains n = false →
      objGet (mkFormRecord docInputs formInputs) n
        = objGet (formDataEntries formInputs) n) := by
  constructor
  · intro i hi ht
    have hc : (passwordNames docInputs).contains i.name = true :=
      contains_passwordNames docInputs i (hsub i hi) ht
    rw [objGet_mkFormRecord, hc]
    simp
  · intro n hn
    rw [objGet_mkFormRecord, hn]
    simp

/-- Witness for claim C6's theorem: a login form whose password field
`pw` is stripped and whose `user` field survives with its value. -/
theorem form_password_stripping_witness :
    objGet (mkFormRecord loginDocInputs loginFormInputs) "pw" = none ∧
    objGet (mkFormRecord loginDocInputs loginFormInputs) "user"
      = objGet (formDataEntries loginFormInputs) "user" := by
  have h := form_password_stripping loginDocInputs loginFormInputs (by decide)
  exact ⟨h.1 { name := "pw", type := "password", value := "hunter2" }
      (by decide) (by decide),
    h.2 "user" (by decide)⟩

/-- Claim C7: the page-change watcher's record is initialised eagerly to
the current URL and title (its state type is total, never absent), a poll
tick mutates the record iff the current URL differs from the recorded
one, and repeated ticks at an unchanged URL are idempotent, so each
distinct URL yields exactly one update. -/
theorem page_watch (env0 env : PageEnv) (s : PageDetails) :
    initPageDetails env0 = { url := env0.href, title := env0.title } ∧
    (pollTick env s ≠ s ↔ env.href ≠ s.url) ∧
    pollTick env (pollTick env s) = pollTick env s := by
  refine ⟨rfl, ?_, ?_⟩
  · by_cases h : env.href = s.url
    · simp [pollTick, h]
    · have hne : (env.href != s.url) = true := by simp [h]
      simp only [pollTick, hne, if_true]
      constructor
      · intro _
        exact h
      · intro _ hc
        exact h (congrArg PageDetails.url hc)
  · by_cases h : env.href = s.url
    · simp [pollTick, h]
    · have hne : (env.href != s.url) = true := by simp [h]
      simp [pollTick, hne]

/-- Claim C8: applying a recording directive replaces the
enabled-category set with the directive's `enabled` list and the session
id with the directive's `id`; a directive with a missing id clears the
session id to absent while the enabled set is still applied. -/
theorem directive_applied (s : CoordinatorState) (d : Directive) :
    (GetRecordingInstructions s d).recordingTypes = d.enabled ∧
    (GetRecordingInstructions s d).recordingsId = d.id ∧
    (GetRecordingInstructions s { enabled := d.enabled, id := none }).recordingsId
      = none ∧
    (GetRecordingInstructions s { enabled := d.enabled, id := none }).recordingTypes
      = d.enabled :=
  ⟨rfl, rfl, rfl, rfl⟩

/-- Claim C9: on the same target, coordinates, container rectangle and
capture time, the move observer's record agrees with the click observer's
record on every shared field — it is exactly the click record with the
click-only `clickType` field dropped and the `type` discriminator retagged
(`MousePositionProps` has no `clickType` field at all); the click record
additionally carries `clickType` derived from the button code. -/
theorem move_click_agreement (env : Env) (e : PointerEvent) :
    mkMoveRecord env e = stripToMove (mkClickRecord env e) ∧
    (mkClickRecord env e).type = "click" ∧
    (mkMoveRecord env e).type = "move" ∧
    (mkClickRecord env e).clickType = clickTypeOf e.button :=
  ⟨rfl, rfl, rfl, rfl⟩

/-- Claim C10: the form observer deletes fields by the names of
password-type inputs queried from the entire document, so any submitted
field whose name equals the name of a password input anywhere in the
document is absent from the published record, even when the submitted
field itself is not a password input. -/
theorem document_wide_password_deletion (docInputs formInputs : List Input)
    (n : String) (h : ∃ i ∈ docInputs, i.type = "password" ∧ i.name = n) :
    objGet (mkFormRecord docInputs formInputs) n = none := by
  obtain ⟨i, hi, ht, hn⟩ := h
  have hc : (passwordNames docInputs).contains n = true := by
    rw [← hn]
    exact contains_passwordNames docInputs i hi ht
  rw [objGet_mkFormRecord, hc]
  simp

/-- Witness for claim C10's theorem: the submitted `token` text field is
deleted because an unrelated password input named `token` exists
elsewhere in the document. -/
theorem document_wide_password_deletion_witness :
    objGet (mkFormRecord sampleDocInputs sampleFormInputs) "token" = none :=
  document_wide_password_deletion sampleDocInputs sampleFormInputs "token" (by decide)

end TrueFlow
